import Mathlib

/-!
Shallow embedding of `megatron_patch/model/idefics2/perceiver_transformer.py`
(the Idefics2 Perceiver resampling transformer).

Tensors are modelled at two levels of abstraction, chosen per operation:

* shape level: a tensor is its shape, a `List Nat` of dimension sizes.
  Operations that can fail at runtime (size mismatches, malformed masks,
  unbound locals) return `Except String (List Nat)`.  Value-preserving
  operations (softmax, dropout, layer norm on a matching hidden size)
  keep the shape and are embedded as such.

* value level: for `DropPath.forward` (whose claim is about exact value
  identity) and for the inference key/value cache adjustment in
  `ParallelAttention.forward` (whose claim is about which cells are
  written), values are carried explicitly.

All definitions mirror the Python source; line numbers in comments refer
to `perceiver_transformer.py`.
-/

namespace Perceiver

/-! ### Shape-level tensor primitives -/

/-- Last dimension of a shape (`t.size(-1)`); `none` for a 0-d tensor. -/
def lastD : List Nat → Option Nat
  | [] => none
  | [d] => some d
  | _ :: rest => lastD rest

/-- Replace the last dimension of a shape. -/
def setLastD : List Nat → Nat → List Nat
  | [], _ => []
  | [_], d => [d]
  | x :: rest, d => x :: setLastD rest d

/-- Number of elements of a tensor with the given shape. -/
def prodD : List Nat → Nat
  | [] => 1
  | x :: rest => x * prodD rest

/-- First dimension (`t.size(0)` / `t.shape[0]`). -/
def dim0 : List Nat → Except String Nat
  | x :: _ => .ok x
  | [] => .error "dimension 0 of a 0-d tensor"

/-- Broadcasting rule for one pair of aligned dimensions. -/
def bcDim (m n : Nat) : Option Nat :=
  if m = n then some m
  else if m = 1 then some n
  else if n = 1 then some m
  else none

/-- Broadcast two reversed (innermost-first) dimension lists. -/
def bcastRev : List Nat → List Nat → Option (List Nat)
  | [], ys => some ys
  | xs, [] => some xs
  | x :: xs, y :: ys =>
    match bcDim x y, bcastRev xs ys with
    | some d, some rest => some (d :: rest)
    | _, _ => none

/-- Shape of an elementwise binary op (e.g. `+`) under torch broadcasting. -/
def addBroadcast (a b : List Nat) : Except String (List Nat) :=
  match bcastRev a.reverse b.reverse with
  | some r => .ok r.reverse
  | none => .error "broadcast failure in elementwise op"

/-- Whether shape `a` can `expand_as` a tensor of shape `target`:
right-aligned, every dimension of `a` equals the target dimension or is 1. -/
def canExpandRev : List Nat → List Nat → Bool
  | [], _ => true
  | _ :: _, [] => false
  | x :: xs, y :: ys => (x = y || x = 1) && canExpandRev xs ys

/-- `bias.expand_as(target)`. -/
def expandAs (a target : List Nat) : Except String (List Nat) :=
  if canExpandRev a.reverse target.reverse then .ok target
  else .error "expand size mismatch"

/-- `tensor_parallel.ColumnParallelLinear(inF, outF)` applied to a tensor:
checks the contraction dimension, splits the output width over the
`world` tensor-parallel ranks (divisibility is asserted at init). -/
def columnLinear (inF outF world : Nat) (s : List Nat) : Except String (List Nat) :=
  if 0 < world ∧ world ∣ outF ∧ lastD s = some inF then .ok (setLastD s (outF / world))
  else .error "column parallel linear size mismatch"

/-- `tensor_parallel.RowParallelLinear(inF, outF)` with `input_is_parallel`:
per-rank input width is `inF / world`, output is the full `outF`. -/
def rowLinear (inF outF world : Nat) (s : List Nat) : Except String (List Nat) :=
  if 0 < world ∧ world ∣ inF ∧ lastD s = some (inF / world) then .ok (setLastD s outF)
  else .error "row parallel linear size mismatch"

/-- `torch.concat([a, b], dim=0)`. -/
def concat0 : List Nat → List Nat → Except String (List Nat)
  | a :: xs, b :: ys =>
    if xs = ys then .ok ((a + b) :: xs) else .error "cat trailing dims mismatch"
  | _, _ => .error "cat on 0-d tensor"

/-- `torch.cat([a, b], dim=-1)`. -/
def catLast (a b : List Nat) : Except String (List Nat) :=
  match lastD a, lastD b with
  | some la, some lb =>
    if a.dropLast = b.dropLast then .ok (setLastD a (la + lb))
    else .error "cat leading dims mismatch"
  | _, _ => .error "cat on 0-d tensor"

/-- `t.view(*known, -1)`: the trailing dimension is inferred; requires the
known sizes to be nonzero and to divide the element count exactly. -/
def viewInfer (known : List Nat) (s : List Nat) : Except String (List Nat) :=
  if 0 < prodD known ∧ prodD known ∣ prodD s then .ok (known ++ [prodD s / prodD known])
  else .error "view with inferred dimension failed"

/-- `t.view(*target)` / `t.reshape(*target)` with all sizes given. -/
def viewTo (target : List Nat) (s : List Nat) : Except String (List Nat) :=
  if prodD s = prodD target then .ok target else .error "view element count mismatch"

/-- `t.transpose(1, 0)` (also the einops swap of the first two dims). -/
def transpose10 : List Nat → Except String (List Nat)
  | a :: b :: rest => .ok (b :: a :: rest)
  | _ => .error "transpose needs two dims"

/-- `t.permute(2, 0, 1, 3)` on a 4-d tensor. -/
def permute2013 : List Nat → Except String (List Nat)
  | [a, b, c, d] => .ok ([c, a, b, d] : List Nat)
  | _ => .error "permute needs four dims"

/-- `torch.bmm(x, y)`: batched matrix product of 3-d tensors. -/
def bmm3 : List Nat → List Nat → Except String (List Nat)
  | [xb, xn, xm], [yb, ym, yp] =>
    if xb = yb ∧ xm = ym then .ok ([xb, xn, yp] : List Nat)
    else .error "bmm batch or contraction mismatch"
  | _, _ => .error "bmm needs 3-d tensors"

/-- `tensor_parallel.split_tensor_along_last_dim(t, 2)`: Megatron asserts
even divisibility; both halves share this shape. -/
def splitLast2 (s : List Nat) : Except String (List Nat) :=
  match lastD s with
  | some d => if d % 2 = 0 then .ok (setLastD s (d / 2)) else .error "split needs even last dim"
  | none => .error "split on 0-d tensor"

/-- `get_norm(config)` (LayerNorm/RMSNorm over `hidden` features): the last
dimension must match the configured hidden size; shape preserved. -/
def normShape (hidden : Nat) (s : List Nat) : Except String (List Nat) :=
  if lastD s = some hidden then .ok s else .error "norm hidden size mismatch"

/-- `_prepare_4d_attention_mask(mask, dtype, tgt_len)`: turns a 2-d
`(batch, src_len)` mask into `(batch, 1, tgt_len, src_len)`. -/
def prepare4dMask (tgt : Nat) : List Nat → Except String (List Nat)
  | [b, src] => .ok ([b, 1, tgt, src] : List Nat)
  | _ => .error "attention mask must be 2-d"

/-- Is this `Except` an error? -/
def isErr : Except String α → Bool
  | .error _ => true
  | .ok _ => false

/-- Is this `Except` a success? -/
def isOk : Except String α → Bool
  | .error _ => false
  | .ok _ => true

/-! ### DropPath (lines 93-113), value level

A hidden-state tensor of layout `[s, b, h]` is a nested list; the random
tensor drawn in the non-identity branch has shape `(1, b, 1)` — one value
per batch element, broadcast over sequence and hidden dims. -/

/-- `DropPath.forward` (lines 102-113).  `rand` is the batch-indexed
uniform sample of `torch.rand`; `floor` binarizes `keep_prob + rand`. -/
def dropPathForward (dropProb : ℚ) (training : Bool) (rand : List ℚ)
    (hiddenState : List (List (List ℚ))) : List (List (List ℚ)) :=
  if dropProb = 0 ∨ training = false then hiddenState
  else
    let keepProb : ℚ := 1 - dropProb
    hiddenState.map fun row =>
      (row.zip rand).map fun br =>
        br.1.map fun x => x / keepProb * ((keepProb + br.2).floor : ℚ)

/-! ### FlashSelfAttention (lines 347-420)

The tensor contents, dtype/device asserts and the unpadding of `k`/`v`
are abstracted; the model records the computed `is_causal` value and the
argument record actually passed to `flash_attn_unpadded_func`. -/

/-- Arguments of the `flash_attn_unpadded_func` call at lines 413-417. -/
structure KernelCall where
  seqlenQ : Nat
  seqlenK : Nat
  dropoutP : ℚ
  causal : Bool
deriving DecidableEq, Repr

/-- `FlashSelfAttention.forward` (lines 367-420): returns the internally
computed `is_causal` value together with the kernel-call record.  The
call site passes the literal `causal=False` (line 416). -/
def flashSelfAttentionCall (selfCausal : Bool) (dropout : ℚ) (training : Bool)
    (seqlenQ seqlenK : Nat) : Bool × KernelCall :=
  let isCausal := if training then selfCausal else decide (seqlenQ = seqlenK)
  let dropoutP := if training then dropout else 0
  (isCausal, { seqlenQ := seqlenQ, seqlenK := seqlenK, dropoutP := dropoutP, causal := false })

/-! ### Enums (megatron LayerType / ModelType) -/

inductive LayerType where
  | encoder
  | decoder
  | retro_encoder
  | retro_decoder
  | retro_decoder_with_retriever
deriving DecidableEq, Repr

inductive ModelType where
  | encoder_or_decoder
  | encoder_and_decoder
  | retro_encoder
  | retro_decoder
deriving DecidableEq, Repr

/-! ### CoreAttention (lines 196-344), shape level -/

/-- `CoreAttention.forward` (lines 243-344).  `hpp` is
`self.hidden_size_per_partition`.  Value-preserving steps (softmax at
line 299, dropout at lines 303-307) keep the shape.  When
`attention_mask` is `None`, the branch at line 291 is skipped and the
softmax consumes the unassigned local `attn_weights`, which raises. -/
def coreAttentionShape (hpp : Nat) (q k v : List Nat) (mask : Option (List Nat)) :
    Except String (List Nat) :=
  match q, k, v with
  | [sq, b, np, hn], [sk, kb, knp, khn], [skv, vb, vnp, vhn] => do
    -- output_size = (b, np, sq, sk) (lines 251-254)
    -- query_layer.reshape(sq, b * np, -1) (line 257)
    let qv ← viewInfer [sq, b * np] [sq, b, np, hn]
    -- key_layer.view(sk, b * np, -1) (line 260)
    let kv2 ← viewInfer [sk, b * np] [sk, kb, knp, khn]
    -- baddbmm(buffer, q.transpose(0,1), k.transpose(0,1).transpose(1,2)) (line 269)
    let qt ← transpose10 qv
    let kt0 ← transpose10 kv2
    let kt ← (match kt0 with
      | [x, y, z] => .ok ([x, z, y] : List Nat)
      | _ => .error "transpose(1,2) needs 3-d")
    let scoresFlat ← bmm3 qt kt
    -- matmul_result.view(b, np, sq, sk) (line 276)
    let scores ← viewTo [b, np, sq, sk] scoresFlat
    -- mask branch (lines 291-297); softmax at 299 needs attn_weights
    let weights ← (match mask with
      | none => Except.error "local variable attn_weights referenced before assignment"
      | some m =>
        if m = [b, 1, sq, sk] then addBroadcast scores m
        else Except.error "attention mask size mismatch")
    -- softmax (line 299) and dropout (lines 303-307) preserve shape
    let probs := weights
    -- output_size = (vb, vnp, sq, vhn) (lines 317-320)
    -- value_layer.view(skv, vb * vnp, -1) (line 323)
    let vv ← viewInfer [skv, vb * vnp] [skv, vb, vnp, vhn]
    -- attention_probs.view(vb * vnp, sq, -1) (line 327)
    let probs2 ← viewInfer [vb * vnp, sq] probs
    -- bmm(attention_probs, value_layer.transpose(0, 1)) (line 331)
    let vt ← transpose10 vv
    let ctxFlat ← bmm3 probs2 vt
    -- context_layer.view(vb, vnp, sq, vhn) (line 334)
    let ctx ← viewTo [vb, vnp, sq, vhn] ctxFlat
    -- permute(2, 0, 1, 3) (line 337)
    let ctxP ← permute2013 ctx
    -- view(size()[:-2] + (hidden_size_per_partition,)) (lines 340-342)
    match ctxP with
    | [a, c, _, _] => viewTo [a, c, hpp] ctxP
    | _ => .error "context layer not 4-d"
  | _, _, _ => .error "core attention expects 4-d query key value"

/-! ### Idefics2ParallelMLP (lines 115-194), shape level -/

/-- The activation selected by the `args` flag chain at lines 149-164. -/
inductive Activation where
  | openaiGelu
  | erfGelu
  | swiglu
  | squaredRelu
  | gelu
deriving DecidableEq, Repr

/-- The global-args flags consumed by `Idefics2ParallelMLP.__init__`. -/
structure MLPArgs where
  openaiGelu : Bool
  onnxSafe : Bool
  swiglu : Bool
  squaredRelu : Bool
  biasGeluFusion : Bool
deriving DecidableEq, Repr

/-- The if/elif chain at lines 149-164. -/
def selectActivation (a : MLPArgs) : Activation :=
  if a.openaiGelu then .openaiGelu
  else if a.onnxSafe then .erfGelu
  else if a.swiglu then .swiglu
  else if a.squaredRelu then .squaredRelu
  else .gelu

/-- `self.bias_gelu_fusion` is set only in the final `else` branch
(line 163); all other branches leave it `False` (line 145). -/
def effectiveFusion (a : MLPArgs) : Bool :=
  !a.openaiGelu && !a.onnxSafe && !a.swiglu && !a.squaredRelu && a.biasGeluFusion

/-- Shape effect of an activation on a tensor.  `swiglu` (lines 154-156)
chunks the last dimension in two (`torch.chunk` puts the extra element
in the first chunk) and multiplies the halves elementwise; the others
are elementwise. -/
def activationShape (act : Activation) (s : List Nat) : Except String (List Nat) :=
  match act with
  | .swiglu =>
    match lastD s with
    | some d =>
      match bcDim (d - d / 2) (d / 2) with
      | some d2 => .ok (setLastD s d2)
      | none => .error "swiglu chunk width mismatch"
    | none => .error "swiglu on 0-d tensor"
  | _ => .ok s

/-- `Idefics2ParallelMLP.forward` (lines 178-194) with the widths fixed
at `__init__` (lines 123-176): `dense_h_to_4h` projects `inputSize` to
`ffn` (doubled when `config.gated_linear_unit`, lines 129-131) and
`dense_4h_to_h` projects `config.ffn_hidden_size` (undoubled, line 168)
back to `outputSize`.  `skip_bias_add=True` on both, so the biases are
returned separately and the first one is added in `forward` (line 189).
Returns `(output, output_bias)` shapes. -/
def mlpForwardShape (inputSize ffn outputSize : Nat) (gated addBias : Bool)
    (a : MLPArgs) (world : Nat) (s : List Nat) :
    Except String (List Nat × Option (List Nat)) := do
  let ffnBig := if gated then 2 * ffn else ffn
  let inter ← columnLinear inputSize ffnBig world s
  let interBias : Option (List Nat) := if addBias then some [ffnBig / world] else none
  let act := selectActivation a
  let inter2 ← (if effectiveFusion a then
      -- asserts add_bias and activation == F.gelu (lines 184-185),
      -- then bias_gelu_impl adds the bias and applies gelu (line 186)
      if addBias ∧ act = .gelu then
        (match interBias with
          | some bs => addBroadcast inter bs
          | none => Except.error "fusion requires a bias")
      else Except.error "assert add_bias and gelu for fusion"
    else do
      -- lines 188-190
      let withBias ← (match interBias with
        | some bs => addBroadcast inter bs
        | none => Except.ok inter)
      activationShape act withBias)
  let out ← rowLinear ffn outputSize world inter2
  let outBias : Option (List Nat) := if addBias then some [outputSize] else none
  pure (out, outBias)

/-! ### FlashSelfAttention output shape (used by the flash branch of
`ParallelAttention.forward`, lines 689-698) -/

/-- Output shape of `FlashSelfAttention.forward` for batch-first 4-d
inputs `(B, S, H, D)`: the attention output has the query layout. -/
def flashAttnShape : List Nat → List Nat → List Nat → Except String (List Nat)
  | [b, sq, h, d], [b2, sk, h2, d2], [b3, sk2, h3, d3] =>
    if b = b2 ∧ b2 = b3 ∧ sk = sk2 ∧ h = h2 ∧ h2 = h3 ∧ d = d2 ∧ d2 = d3 then
      .ok ([b, sq, h, d] : List Nat)
    else .error "flash attention size mismatch"
  | _, _, _ => .error "flash attention expects 4-d tensors"

/-! ### ParallelAttention (lines 423-706), shape level

Configuration: `qproj = config.kv_channels * config.num_attention_heads`
(line 452), `kvproj = qproj` (line 453), `num_key_value_groups =
num_heads // num_kv_heads` with `num_kv_heads = num_heads` (lines
454-456).  The inference cache is projected to its extents and offsets
`(memRows, memCols, sequence_len_offset, batch_size_offset)`; the
value-level cache content is modelled separately below for the cache
claims. -/

def parallelAttentionShape (textHidden numHeads hn world : Nat) (useFlashAttn : Bool)
    (latents context : List Nat) (mask : Option (List Nat))
    (inferP : Option (Nat × Nat × Nat × Nat)) : Except String (List Nat) := do
  let qproj := hn * numHeads
  let kvproj := qproj
  let groups := numHeads / numHeads
  let np := numHeads / world
  let hnQ := qproj / numHeads
  let hnKv := kvproj / numHeads
  -- hidden_states = torch.concat([context, latents], dim=0) (line 619)
  let hidden ← concat0 context latents
  -- mixed_kv_layer, _ = self.key_value(hidden_states) (line 621);
  -- width 2 * kv_projection_size * num_key_value_groups (line 522)
  let mixedKv ← columnLinear textHidden (2 * kvproj * groups) world hidden
  -- view to size()[:-1] + (np, 2 * hn) (lines 628-631)
  let mixedKv4 ← viewTo (mixedKv.dropLast ++ [np, 2 * hnKv]) mixedKv
  -- split_tensor_along_last_dim(mixed_kv_layer, 2) (lines 634-635)
  let kvShape ← splitLast2 mixedKv4
  let keyL := kvShape
  let valueL := kvShape
  -- query_layer, _ = self.query(latents) (line 638), view (lines 640-643)
  let q1 ← columnLinear textHidden qproj world latents
  let q2 ← viewTo (q1.dropLast ++ [np, hnQ]) q1
  -- adjust key and value for inference (lines 649-665), shape projection
  let adjusted ← (match inferP with
    | none => Except.ok (keyL, valueL)
    | some (memRows, memCols, seqOffset, batchOffset) =>
      match keyL with
      | [skk, bk, npk, hnk] =>
        if batchOffset + bk ≤ memCols then
          if seqOffset + skk ≤ memRows then
            Except.ok (([seqOffset + skk, bk, npk, hnk] : List Nat),
                       ([seqOffset + skk, bk, npk, hnk] : List Nat))
          else Except.error "assert sequence_end le cache rows"
        else Except.error "assert batch_end le cache cols"
      | _ => Except.error "inference expects 4-d key")
  let keyL2 := adjusted.1
  let valueL2 := adjusted.2
  -- core attention (lines 682-698); checkpoint_core_attention is forced
  -- False (line 532), so the non-flash branch calls core_attention
  let ctx ← (if useFlashAttn then do
      -- rearrange s b ... to b s ... (line 690)
      let qf ← transpose10 q2
      let kf ← transpose10 keyL2
      let vf ← transpose10 valueL2
      let o ← flashAttnShape qf kf vf
      -- rearrange b s h d to s b (h d) (line 698)
      match o with
      | [b, s, h, d] => Except.ok ([s, b, h * d] : List Nat)
      | _ => Except.error "flash output not 4-d"
    else coreAttentionShape (qproj / world) q2 keyL2 valueL2 mask)
  -- output, bias = self.dense(context_layer) (line 704)
  rowLinear qproj textHidden world ctx

/-! ### ParallelTransformerLayer (lines 740-1143), shape level

The forward at lines 1043-1143 runs: input norms, cross self-attention,
bias-dropout-add against the latents residual, post-attention norm, the
gated MLP (`attention_mlp_config`: input = text_hidden_size, ffn =
4 * text_hidden_size, output = text_hidden_size, gated_linear_unit =
True, lines 799-810), a second bias-dropout-add, and finally returns a
pair `(output, retriever_output)` exactly for the
`retro_decoder_with_retriever` layer type (lines 1140-1143). -/

/-- What `ParallelTransformerLayer.forward` returns. -/
inductive LayerOut where
  | single (s : List Nat)
  | pair (s : List Nat) (retrieverOutput : Option (List Nat))
deriving DecidableEq, Repr

/-- Whether a layer result is the `(output, retriever_output)` pair. -/
def LayerOut.isPair : LayerOut → Bool
  | .pair _ _ => true
  | .single _ => false

/-- `bias_dropout_add(x, bias, residual, prob)` (lines 709-715), shape
level: `x + bias` (broadcast), dropout (shape preserving), `residual +
out` (broadcast). -/
def biasDropoutAddShape (x : List Nat) (bias : Option (List Nat)) (residual : List Nat) :
    Except String (List Nat) := do
  let xb ← (match bias with
    | none => Except.ok x
    | some bs => addBroadcast x bs)
  addBroadcast residual xb

/-- Static configuration of one `ParallelTransformerLayer` (and its
attention/MLP submodules) needed at shape level. -/
structure LayerCfg where
  textHidden : Nat
  numHeads : Nat
  hn : Nat
  world : Nat
  useFlashAttn : Bool
  addBiasLinear : Bool
  applyResidualPostNorm : Bool
  mlpArgs : MLPArgs
  dropPathUsed : Bool
deriving Repr

/-- `ParallelTransformerLayer.forward` (lines 1043-1143), shape level.
`RowParallelLinear` biases have the full output width, so the attention
bias shape is `[textHidden]` when `add_bias_linear` is set.  The
drop-path branch (lines 1092-1096, 1132-1138) adds the bias with plain
`+`, which raises when the bias is `None`. -/
def layerForwardShape (cfg : LayerCfg) (layerType : LayerType)
    (latents context : List Nat) (mask : Option (List Nat))
    (retrieverOutput : Option (List Nat))
    (inferP : Option (Nat × Nat × Nat × Nat)) : Except String LayerOut := do
  let residual := latents
  -- input_latents_norm / input_context_norm over text_hidden (767-770, 1057-1058)
  let lN ← normShape cfg.textHidden latents
  let cN ← normShape cfg.textHidden context
  -- self_attention (lines 1061-1069)
  let attnOut ← parallelAttentionShape cfg.textHidden cfg.numHeads cfg.hn cfg.world
      cfg.useFlashAttn lN cN mask inferP
  let attnBias : Option (List Nat) :=
    if cfg.addBiasLinear then some [cfg.textHidden] else none
  let normInput ← (if cfg.dropPathUsed then do
      -- lines 1092-1096: attention_output + attention_bias, dropout,
      -- residual + drop_path(out)
      let withBias ← (match attnBias with
        | some bs => addBroadcast attnOut bs
        | none => Except.error "unsupported add of tensor and NoneType")
      addBroadcast residual withBias
    else do
      -- lines 1084-1091: attention_bias.expand_as(residual), then
      -- bias_dropout_add_func(attention_output, bias, residual, p)
      let attnBiasE ← (match attnBias with
        | none => Except.ok none
        | some bs => (expandAs bs residual).map some)
      biasDropoutAddShape attnOut attnBiasE residual)
  -- post_attention_norm (line 1100)
  let normOutput ← normShape cfg.textHidden normInput
  -- self.mlp (line 1104) built from attention_mlp_config (lines 799-810)
  let mlpRes ← mlpForwardShape cfg.textHidden (4 * cfg.textHidden) cfg.textHidden
      true cfg.addBiasLinear cfg.mlpArgs cfg.world normOutput
  let residual2 := if cfg.applyResidualPostNorm then normOutput else normInput
  let output ← (if cfg.dropPathUsed then do
      -- lines 1132-1138
      let withBias ← (match mlpRes.2 with
        | some bs => addBroadcast mlpRes.1 bs
        | none => Except.ok mlpRes.1)
      addBroadcast residual2 withBias
    else do
      -- lines 1112-1120
      let mlpBiasE ← (match mlpRes.2 with
        | none => Except.ok none
        | some bs => (expandAs bs residual2).map some)
      biasDropoutAddShape mlpRes.1 mlpBiasE residual2)
  -- lines 1140-1143
  if layerType = LayerType.retro_decoder_with_retriever then
    pure (.pair output retrieverOutput)
  else
    pure (.single output)

/-- Whether a layer-forward result succeeded with the
`(output, retriever_output)` pair. -/
def resultIsPair : Except String LayerOut → Bool
  | .ok r => r.isPair
  | .error _ => false

/-! ### Layer-number and layer-type helpers (lines 1227-1240, 1338-1344) -/

/-- `np.arange(start, stop, step)` for a positive step:
`ceil((stop - start) / step)` elements starting at `start`. -/
def arange (start stop step : Nat) : List Nat :=
  List.range' start ((stop - start + (step - 1)) / step) step

/-- The `self.retro_layer_numbers` precomputation in
`Idefics2PerceiverParallelTransformer.__init__` (lines 1338-1344):
`None` unless the model type is retro; the start index is 6 when
`config.num_layers <= 15`, else 9, and the range runs to
`args.num_layers + 1` in steps of 3. -/
def computeRetroLayerNumbers (modelType : ModelType)
    (configNumLayers argsNumLayers : Nat) : Option (List Nat) :=
  if modelType = ModelType.retro_decoder then
    some (arange (if configNumLayers ≤ 15 then 6 else 9) (argsNumLayers + 1) 3)
  else if modelType = ModelType.retro_encoder then some [1]
  else none

/-- `_get_layer_type` (lines 1227-1240).  Testing membership in a `None`
layer-number list raises, as `layer_number in None` does. -/
def getLayerType (retroAddRetriever : Bool) (modelType : ModelType)
    (defaultLayerType : LayerType) (retroLayerNumbers : Option (List Nat))
    (layerNumber : Nat) : Except String LayerType :=
  if retroAddRetriever then
    match retroLayerNumbers with
    | none => .error "argument of type NoneType is not iterable"
    | some nums =>
      if layerNumber ∈ nums then
        match modelType with
        | .retro_decoder =>
          .ok (if nums.head? = some layerNumber then
                LayerType.retro_decoder_with_retriever
              else LayerType.retro_decoder)
        | .retro_encoder => .ok .retro_encoder
        | _ => .error "Unsupported model type"
      else .ok defaultLayerType
  else .ok defaultLayerType

/-! ### Idefics2PerceiverParallelTransformer.forward (lines 1581-1723),
shape level, for the `local` transformer implementation without full
recompute.  A layer that returns the retriever pair hands a tuple to the
next layer norm (or to the final norm), which raises; the model reports
this as an error. -/

/-- Static configuration of the top-level transformer. -/
structure TransformerCfg where
  numLayers : Nat
  nLatents : Nat
  textHidden : Nat
  visionHidden : Nat
  intermediateSize : Nat
  numHeads : Nat
  hn : Nat
  world : Nat
  useFlashAttn : Bool
  addBiasLinear : Bool
  applyResidualPostNorm : Bool
  mlpArgs : MLPArgs
  dropPathRate0 : Bool
  retroAddRetriever : Bool
  modelType : ModelType
  defaultLayerType : LayerType
  offset : Nat
  postProcess : Bool
  postNorm : Bool
deriving Repr

/-- The per-layer configuration induced by the transformer config. -/
def TransformerCfg.layerCfg (cfg : TransformerCfg) : LayerCfg :=
  { textHidden := cfg.textHidden, numHeads := cfg.numHeads, hn := cfg.hn,
    world := cfg.world, useFlashAttn := cfg.useFlashAttn,
    addBiasLinear := cfg.addBiasLinear,
    applyResidualPostNorm := cfg.applyResidualPostNorm,
    mlpArgs := cfg.mlpArgs, dropPathUsed := !cfg.dropPathRate0 }

/-- The sequential layer loop (lines 1696-1703) over the layers built by
`build_layer(i + 1 + offset)` (line 1469); `layerIdx` counts from 0. -/
def runLayers (cfg : TransformerCfg) (retroNums : Option (List Nat))
    (contextS : List Nat) (mask : Option (List Nat))
    (retrieverOutput : Option (List Nat)) (inferP : Option (Nat × Nat × Nat × Nat)) :
    Nat → Nat → List Nat → Except String (List Nat)
  | _, 0, compressed => .ok compressed
  | layerIdx, n + 1, compressed =>
    (getLayerType cfg.retroAddRetriever cfg.modelType cfg.defaultLayerType
        retroNums (layerIdx + 1 + cfg.offset)).bind fun lt =>
    (layerForwardShape cfg.layerCfg lt compressed contextS mask
        retrieverOutput inferP).bind fun r =>
    match r with
    | .single s => runLayers cfg retroNums contextS mask retrieverOutput inferP
        (layerIdx + 1) n s
    | .pair _ _ => .error "tuple fed into next layer"

/-- `Idefics2PerceiverParallelTransformer.forward` (lines 1581-1723):
modality projection (gated MLP, lines 1436-1448, 1623), latent
expansion (lines 1649, 1454), latent mask concatenation (lines
1650-1653), optional 4-d mask preparation when not using flash
attention (lines 1655-1659), the transposes at lines 1663-1664, the
layer loop, and the final norm when post-processing (lines 1720-1721).
The zero-layer `NoopTransformerLayer` substitution (lines 1456-1466,
only reachable with a standalone embedding stage) is outside this
model; theorems assume at least one layer. -/
def transformerForwardShape (cfg : TransformerCfg)
    (hiddenStates attentionMask : List Nat)
    (retrieverOutput : Option (List Nat)) (inferP : Option (Nat × Nat × Nat × Nat)) :
    Except String (List Nat) := do
  let retroNums := computeRetroLayerNumbers cfg.modelType cfg.numLayers cfg.numLayers
  -- context, _ = self.modality_projection(hidden_states) (line 1623);
  -- widths from modality_projection_config (lines 1436-1440)
  let proj ← mlpForwardShape cfg.visionHidden cfg.intermediateSize cfg.textHidden
      true cfg.addBiasLinear cfg.mlpArgs cfg.world hiddenStates
  let context1 := proj.1
  -- latents = self.latents.unsqueeze(0).expand((hidden_states.shape[0], ...)) (1649)
  let b0 ← dim0 hiddenStates
  let latents1 : List Nat := [b0, cfg.nLatents, cfg.textHidden]
  -- latent_attention_mask = ones((attention_mask.size(0), latents.size(1))) (1650)
  let am0 ← dim0 attentionMask
  let latMask : List Nat := [am0, cfg.nLatents]
  -- attention_mask = torch.cat([attention_mask, latent_attention_mask], -1) (1653)
  let mask1 ← catLast attentionMask latMask
  -- 4-d mask only when not using flash attention (lines 1655-1659)
  let mask2 ← (if cfg.useFlashAttn then Except.ok mask1
    else prepare4dMask cfg.nLatents mask1)
  -- transposes (lines 1663-1664)
  let context2 ← transpose10 context1
  let compressed0 ← transpose10 latents1
  -- layer loop (lines 1696-1703)
  let final ← runLayers cfg retroNums context2 (some mask2) retrieverOutput inferP
      0 cfg.numLayers compressed0
  -- final norm (lines 1720-1721)
  if cfg.postProcess ∧ cfg.postNorm then normShape cfg.textHidden final
  else pure final

/-! ### Inference key/value cache adjustment (lines 649-665), value level

The cache tensors allocated by `_allocate_memory` (lines 573-580) are
4-d `[max_seq, max_batch, heads, head_dim]`; the cache logic indexes
only the first two dimensions, so a cell value of type `α` stands for
one `[heads, head_dim]` block.  `_allocate_memory` is called twice with
identical extents for key and value (lines 595-600), and the key and
value layers are the two halves of one `split_tensor_along_last_dim`,
hence share their shape. -/

/-- A 2-d tensor over the sequence and batch dimensions. -/
structure Tensor2 (α : Type) where
  rows : Nat
  cols : Nat
  data : Nat → Nat → α

/-- Slice-assign `mem[so:so+rows, bo:bo+cols, ...] = blk` where the
region extents come from the key layer (lines 658-661). -/
def writeBlock (mem : Tensor2 α) (so bo rrows rcols : Nat) (blk : Tensor2 α) : Tensor2 α :=
  { mem with data := fun i j =>
      if so ≤ i ∧ i < so + rrows ∧ bo ≤ j ∧ j < bo + rcols then
        blk.data (i - so) (j - bo)
      else mem.data i j }

/-- Read back `mem[:seqEnd, bStart:bEnd, ...]` (lines 662-665). -/
def sliceKV (mem : Tensor2 α) (seqEnd bStart bEnd : Nat) : Tensor2 α :=
  { rows := seqEnd, cols := bEnd - bStart, data := fun i j => mem.data i (bStart + j) }

/-- Result of the cache adjustment: the two updated cache tensors and
the effective key/value slices used by this step. -/
structure AdjustResult (α : Type) where
  keyMem : Tensor2 α
  valMem : Tensor2 α
  keyOut : Tensor2 α
  valOut : Tensor2 α

/-- The `if inference_params:` block of `ParallelAttention.forward`
(lines 649-665): computes the batch window, asserts it fits the cache
(line 653), computes the sequence window, asserts it fits (line 656),
and only then writes the new key/value slice and reads back the full
valid prefix. -/
def adjustKeyValueForInference (keyMem valMem : Tensor2 α) (seqOffset batchOffset : Nat)
    (keyLayer valLayer : Tensor2 α) : Except String (AdjustResult α) :=
  let batchStart := batchOffset
  let batchEnd := batchStart + keyLayer.cols
  if batchEnd ≤ keyMem.cols then
    let seqStart := seqOffset
    let seqEnd := seqStart + keyLayer.rows
    if seqEnd ≤ keyMem.rows then
      let km := writeBlock keyMem seqStart batchStart keyLayer.rows keyLayer.cols keyLayer
      let vm := writeBlock valMem seqStart batchStart keyLayer.rows keyLayer.cols valLayer
      .ok { keyMem := km, valMem := vm,
            keyOut := sliceKV km seqEnd batchStart batchEnd,
            valOut := sliceKV vm seqEnd batchStart batchEnd }
    else .error "assert sequence_end le inference_key_memory size 0"
  else .error "assert batch_end le inference_key_memory size 1"

/-! ### load_state_dict (lines 1725-1741) -/

/-- Whether the pattern occurs at the head of the character list. -/
def headMatch : List Char → List Char → Bool
  | [], _ => true
  | _ :: _, [] => false
  | p :: ps, c :: cs => p = c && headMatch ps cs

/-- Recursion core of `replaceAll`.  The fuel is structural so that the
function computes inside the kernel; each step consumes at least one
character, so fuel equal to the input length never runs out. -/
def replaceAllFuel (pat rep : List Char) : Nat → List Char → List Char
  | 0, s => s
  | _ + 1, [] => []
  | fuel + 1, c :: rest =>
    match pat, headMatch pat (c :: rest) with
    | _ :: ps, true => rep ++ replaceAllFuel pat rep fuel (rest.drop ps.length)
    | _, _ => c :: replaceAllFuel pat rep fuel rest

/-- Python `str.replace`: replace every non-overlapping occurrence of
`pat`, scanning left to right.  (Never called with an empty pattern.) -/
def replaceAll (pat rep s : List Char) : List Char :=
  replaceAllFuel pat rep s.length s

/-- String wrapper for `replaceAll`. -/
def pyReplace (s pat rep : String) : String :=
  ⟨replaceAll pat.toList rep.toList s.toList⟩

/-- Transformer implementation selected by `args.transformer_impl`. -/
inductive TransformerImpl where
  | local_
  | transformerEngine
deriving DecidableEq, Repr

/-- `Idefics2PerceiverParallelTransformer.load_state_dict` (lines
1725-1741): when not on the transformer-engine implementation, each key
has `"layernorm"` rewritten to `"norm"`; the delegated call is strict
only under `args.use_mistral_rotary_position_embeddings`, else it
passes `strict=False`.  Returns the rewritten dictionary (as an
association list) and the effective strict flag. -/
def loadStateDictCall (impl : TransformerImpl) (useMistralRope : Bool)
    (stateDict : List (String × α)) (strict : Bool) :
    List (String × α) × Bool :=
  let rewritten := stateDict.map fun kv =>
    (if impl ≠ TransformerImpl.transformerEngine then
       pyReplace kv.1 "layernorm" "norm"
     else kv.1, kv.2)
  (rewritten, if useMistralRope then strict else false)

/-- Start index of the retro layer numbers (line 1340). -/
def retroStart (configNumLayers : Nat) : Nat :=
  if configNumLayers ≤ 15 then 6 else 9

/-- The retro layer numbers for a retro-decoder model whose config and
args layer counts agree. -/
def retroNumsOf (numLayers : Nat) : List Nat :=
  arange (retroStart numLayers) (numLayers + 1) 3

/-! ### Generic `Except` plumbing lemmas -/

theorem except_ok_bind (a : α) (f : α → Except String β) :
    (Except.ok a >>= f) = f a := rfl

theorem except_Bind_ok (a : α) (f : α → Except String β) :
    Except.bind (Except.ok a) f = f a := rfl

theorem except_error_bind (e : String) (f : α → Except String β) :
    ((Except.error e : Except String α) >>= f) = Except.error e := rfl

theorem isErr_bind {e : Except String α} {f : α → Except String β}
    (h : ∀ a, isErr (f a) = true) : isErr (e >>= f) = true := by
  cases e with
  | error s => rfl
  | ok a => simpa [except_ok_bind] using h a

theorem ok_of_bind {e : Except String α} {f : α → Except String β} {r : β}
    (h : (e >>= f) = .ok r) : ∃ a, e = .ok a ∧ f a = .ok r := by
  cases e with
  | error s => simp [except_error_bind] at h
  | ok a => exact ⟨a, rfl, h⟩

theorem bcDim_self (x : Nat) : bcDim x x = some x := by simp [bcDim]

theorem bcDim_one (x : Nat) : bcDim x 1 = some x := by
  unfold bcDim
  by_cases h : x = 1 <;> simp [h]

/-! ### Claim C7: DropPath identity -/

/-- C7: `DropPath.forward` is the identity: for every input tensor, if
the drop probability is 0 or the module is in evaluation mode, the
output equals the input exactly (lines 102-104). -/
theorem c7_droppath_identity (dropProb : ℚ) (training : Bool) (rand : List ℚ)
    (hiddenState : List (List (List ℚ)))
    (h : dropProb = 0 ∨ training = false) :
    dropPathForward dropProb training rand hiddenState = hiddenState := by
  unfold dropPathForward
  rw [if_pos h]

/-- Witness for C7 at a concrete input. -/
theorem c7_droppath_identity_witness :
    dropPathForward (1 / 2) false [1 / 3] [[[5, 7]], [[11, 13]]] = [[[5, 7]], [[11, 13]]] :=
  c7_droppath_identity (1 / 2) false [1 / 3] [[[5, 7]], [[11, 13]]] (Or.inr rfl)

/-! ### Claim C4: FlashSelfAttention always calls the kernel non-causal -/

/-- C4: `FlashSelfAttention.forward` always invokes the fused
variable-length kernel with `causal=False` (line 416), for every
training/evaluation mode, configured causal flag and query/key sequence
lengths; moreover the kernel-call record is entirely independent of the
configured causal flag, so the internally computed `is_causal` value
never reaches the call. -/
theorem c4_flash_kernel_never_causal (selfCausal : Bool) (dropout : ℚ)
    (training : Bool) (seqlenQ seqlenK : Nat) :
    (flashSelfAttentionCall selfCausal dropout training seqlenQ seqlenK).2.causal = false
    ∧ ∀ otherCausal : Bool,
        (flashSelfAttentionCall selfCausal dropout training seqlenQ seqlenK).2 =
          (flashSelfAttentionCall otherCausal dropout training seqlenQ seqlenK).2 := by
  constructor
  · rfl
  · intro otherCausal
    rfl

/-! ### Claim C9: load_state_dict key rewriting and strictness -/

/-- C9: `load_state_dict` rewrites every key by replacing the substring
`"layernorm"` with `"norm"` when the implementation is not the
transformer engine (lines 1731-1734), and the delegated load is strict
only when `use_mistral_rotary_position_embeddings` is enabled; with the
flag off it loads permissively regardless of the caller-supplied
`strict` argument (lines 1738-1741). -/
theorem c9_load_state_dict_rewrite_and_strict {α : Type}
    (impl : TransformerImpl) (useMistralRope : Bool)
    (stateDict : List (String × α)) (strict : Bool) :
    (impl ≠ TransformerImpl.transformerEngine →
      (loadStateDictCall impl useMistralRope stateDict strict).1 =
        stateDict.map fun kv => (pyReplace kv.1 "layernorm" "norm", kv.2))
    ∧ ((loadStateDictCall impl useMistralRope stateDict strict).2 = true →
        useMistralRope = true)
    ∧ (useMistralRope = false →
        (loadStateDictCall impl useMistralRope stateDict strict).2 = false) := by
  refine ⟨fun h => ?_, fun h => ?_, fun h => ?_⟩
  · simp [loadStateDictCall, h]
  · cases useMistralRope with
    | true => rfl
    | false => simp [loadStateDictCall] at h
  · simp [loadStateDictCall, h]

/-- Witness for C9: a key containing the legacy substring is rewritten,
and with the mistral flag off the delegated load is permissive even
though the caller asked for a strict load. -/
theorem c9_load_state_dict_witness :
    (loadStateDictCall TransformerImpl.local_ false
        [("layers.0.input_layernorm.weight", (0 : Nat))] true).1 =
      [("layers.0.input_norm.weight", (0 : Nat))]
    ∧ (loadStateDictCall TransformerImpl.local_ false
        [("layers.0.input_layernorm.weight", (0 : Nat))] true).2 = false := by
  constructor
  · rw [(c9_load_state_dict_rewrite_and_strict TransformerImpl.local_ false
      [("layers.0.input_layernorm.weight", (0 : Nat))] true).1 (by decide)]
    decide
  · exact (c9_load_state_dict_rewrite_and_strict TransformerImpl.local_ false
      [("layers.0.input_layernorm.weight", (0 : Nat))] true).2.2 rfl

/-! ### Claim C8: retro layer numbers and their layer-type tags -/

/-- C8: for a retro-decoder model type the precomputed retro layer
numbers are every third index starting at 6 when `num_layers <= 15` and
at 9 when `num_layers > 15` (lines 1339-1342), so `num_layers=12` gives
`[6, 9, 12]` and `num_layers=20` gives `[9, 12, 15, 18]`; and
`_get_layer_type` (lines 1227-1240) tags the first such layer number as
retro-decoder-with-retriever and every later one as plain
retro-decoder. -/
theorem c8_retro_layer_numbers_and_tags (n : Nat) :
    computeRetroLayerNumbers ModelType.retro_decoder 12 12 = some [6, 9, 12]
    ∧ computeRetroLayerNumbers ModelType.retro_decoder 20 20 = some [9, 12, 15, 18]
    ∧ computeRetroLayerNumbers ModelType.retro_decoder n n = some (retroNumsOf n)
    ∧ (∀ m, m ∈ retroNumsOf n ↔
        retroStart n ≤ m ∧ m ≤ n ∧ (m - retroStart n) % 3 = 0)
    ∧ (∀ (d : LayerType) (m : Nat), m ∈ retroNumsOf n →
        getLayerType true ModelType.retro_decoder d (some (retroNumsOf n)) m =
          .ok (if m = retroStart n then LayerType.retro_decoder_with_retriever
               else LayerType.retro_decoder)) := by
  have hhead : ∀ m, m ∈ retroNumsOf n → (retroNumsOf n).head? = some (retroStart n) := by
    intro m hm
    unfold retroNumsOf arange at hm ⊢
    obtain ⟨i, hi, _⟩ := List.mem_range'.mp hm
    cases hc : (n + 1 - retroStart n + (3 - 1)) / 3 with
    | zero => rw [hc] at hi; omega
    | succ k => rw [List.range'_succ]; rfl
  refine ⟨by decide, by decide, rfl, fun m => ?_, fun d m hm => ?_⟩
  · unfold retroNumsOf arange
    rw [List.mem_range']
    by_cases hn : n ≤ 15 <;> simp only [retroStart, hn, if_true, if_false] <;>
      constructor
    · rintro ⟨i, hi, rfl⟩
      omega
    · rintro ⟨h1, h2, h3⟩
      exact ⟨(m - 6) / 3, by omega, by omega⟩
    · rintro ⟨i, hi, rfl⟩
      omega
    · rintro ⟨h1, h2, h3⟩
      exact ⟨(m - 9) / 3, by omega, by omega⟩
  · have hh := hhead m hm
    unfold getLayerType
    rw [if_pos rfl]
    simp only [hm, if_true, hh]
    rcases eq_or_ne m (retroStart n) with he | he
    · subst he
      simp
    · simp [he, Ne.symm he]

/-- Witness for C8: layer 9 of a 12-layer retro decoder is a plain
retro-decoder layer (it is in the retro set but not first). -/
theorem c8_retro_layer_numbers_witness :
    getLayerType true ModelType.retro_decoder LayerType.encoder (some (retroNumsOf 12)) 9 =
      .ok (if 9 = retroStart 12 then LayerType.retro_decoder_with_retriever
           else LayerType.retro_decoder) :=
  (c8_retro_layer_numbers_and_tags 12).2.2.2.2 LayerType.encoder 9 (by decide)

/-! ### Claim C5: inference key/value cache bounds and writes -/

/-- C5: with an inference cache, a key/value write whose batch
end-offset exceeds the allocated batch extent, or whose sequence
end-offset exceeds the allocated sequence extent, hits a fatal
assertion before any cache mutation (lines 651-656); when both are
within bounds, the new slice is written at the offsets and the full
valid prefix of the cache is read back as the effective key/value
(lines 658-665). -/
theorem c5_inference_cache_bounds {α : Type} (km vm kl vl : Tensor2 α) (so bo : Nat)
    (_hvr : vm.rows = km.rows) (_hvc : vm.cols = km.cols)
    (_hlr : vl.rows = kl.rows) (_hlc : vl.cols = kl.cols) :
    (isErr (adjustKeyValueForInference km vm so bo kl vl) = true ↔
      km.cols < bo + kl.cols ∨ km.rows < so + kl.rows)
    ∧ ∀ r, adjustKeyValueForInference km vm so bo kl vl = .ok r →
        ((∀ i j, i < kl.rows → j < kl.cols →
            r.keyMem.data (so + i) (bo + j) = kl.data i j
            ∧ r.valMem.data (so + i) (bo + j) = vl.data i j)
        ∧ (∀ i j, i < so ∨ so + kl.rows ≤ i ∨ j < bo ∨ bo + kl.cols ≤ j →
            r.keyMem.data i j = km.data i j ∧ r.valMem.data i j = vm.data i j)
        ∧ (r.keyOut.rows = so + kl.rows ∧ r.keyOut.cols = kl.cols
            ∧ r.valOut.rows = so + kl.rows ∧ r.valOut.cols = kl.cols)
        ∧ (∀ i j, r.keyOut.data i j = r.keyMem.data i (bo + j)
            ∧ r.valOut.data i j = r.valMem.data i (bo + j))) := by
  unfold adjustKeyValueForInference
  by_cases h1 : bo + kl.cols ≤ km.cols
  · by_cases h2 : so + kl.rows ≤ km.rows
    · rw [if_pos h1, if_pos h2]
      constructor
      · simp [isErr]
        omega
      · intro r hr
        have hr' := (Except.ok.inj hr).symm
        subst hr'
        have e1 : ∀ i, so + i - so = i := fun i => by omega
        have e2 : ∀ j, bo + j - bo = j := fun j => by omega
        refine ⟨fun i j hi hj => ⟨?_, ?_⟩, fun i j h => ⟨?_, ?_⟩,
          ⟨rfl, ?_, rfl, ?_⟩, fun i j => ⟨rfl, rfl⟩⟩
        · simp only [writeBlock]
          rw [if_pos (by omega), e1, e2]
        · simp only [writeBlock]
          rw [if_pos (by omega), e1, e2]
        · simp only [writeBlock]
          rw [if_neg (by omega)]
        · simp only [writeBlock]
          rw [if_neg (by omega)]
        · show bo + kl.cols - bo = kl.cols
          omega
        · show bo + kl.cols - bo = kl.cols
          omega
    · rw [if_pos h1, if_neg h2]
      constructor
      · simp [isErr]
        omega
      · intro r hr
        simp at hr
  · rw [if_neg h1]
    constructor
    · simp [isErr]
      omega
    · intro r hr
      simp at hr

/-- Witness for C5: a 5x4 cache, offsets (1,1), a 2x2 slice is in
bounds; offsets (4,1) overflow the sequence extent and (1,3) overflow
the batch extent. -/
theorem c5_inference_cache_witness :
    isErr (adjustKeyValueForInference
      (⟨5, 4, fun i j => 100 + 10 * i + j⟩ : Tensor2 Nat)
      ⟨5, 4, fun i j => 100 + 10 * i + j⟩ 1 1
      ⟨2, 2, fun i j => 900 + 10 * i + j⟩
      ⟨2, 2, fun i j => 900 + 10 * i + j⟩) = false
    ∧ isErr (adjustKeyValueForInference
      (⟨5, 4, fun i j => 100 + 10 * i + j⟩ : Tensor2 Nat)
      ⟨5, 4, fun i j => 100 + 10 * i + j⟩ 4 1
      ⟨2, 2, fun i j => 900 + 10 * i + j⟩
      ⟨2, 2, fun i j => 900 + 10 * i + j⟩) = true := by
  constructor
  · exact Bool.eq_false_iff.mpr fun h => absurd
      ((c5_inference_cache_bounds
        (⟨5, 4, fun i j => 100 + 10 * i + j⟩ : Tensor2 Nat)
        ⟨5, 4, fun i j => 100 + 10 * i + j⟩
        ⟨2, 2, fun i j => 900 + 10 * i + j⟩
        ⟨2, 2, fun i j => 900 + 10 * i + j⟩ 1 1 rfl rfl rfl rfl).1.mp h)
      (by decide)
  · exact (c5_inference_cache_bounds
      (⟨5, 4, fun i j => 100 + 10 * i + j⟩ : Tensor2 Nat)
      ⟨5, 4, fun i j => 100 + 10 * i + j⟩
      ⟨2, 2, fun i j => 900 + 10 * i + j⟩
      ⟨2, 2, fun i j => 900 + 10 * i + j⟩ 4 1 rfl rfl rfl rfl).1.mpr
      (Or.inr (by decide))

/-! ### CoreAttention evaluation -/

/-- Evaluation of `CoreAttention.forward` on conforming 4-d inputs:
the only possible failure is the attention-mask shape check. -/
theorem coreAttentionShape_eval (hpp sq sk b np hn : Nat) (m : List Nat)
    (hsq : 0 < sq) (hsk : 0 < sk) (hb : 0 < b) (hnp : 0 < np)
    (hhpp : hpp = np * hn) :
    coreAttentionShape hpp [sq, b, np, hn] [sk, b, np, hn] [sk, b, np, hn] (some m) =
      if m = [b, 1, sq, sk] then .ok [sq, b, hpp]
      else .error "attention mask size mismatch" := by
  subst hhpp
  have hk1 : prodD [sq, b * np] = sq * (b * np) := by simp [prodD]
  have hq4 : prodD [sq, b, np, hn] = sq * (b * np) * hn := by simp [prodD]; ring
  have hk4 : prodD [sk, b, np, hn] = sk * (b * np) * hn := by simp [prodD]; ring
  have hs1 : prodD [sk, b * np] = sk * (b * np) := by simp [prodD]
  have hbp1 : prodD [b * np, sq] = b * np * sq := by simp [prodD]
  have hp4 : prodD [b, np, sq, sk] = b * np * sq * sk := by simp [prodD]; ring
  have e1 : viewInfer [sq, b * np] [sq, b, np, hn] = .ok [sq, b * np, hn] := by
    unfold viewInfer
    rw [hk1, hq4, if_pos ⟨by positivity, dvd_mul_right _ _⟩,
      Nat.mul_div_cancel_left _ (by positivity)]
    rfl
  have e2 : viewInfer [sk, b * np] [sk, b, np, hn] = .ok [sk, b * np, hn] := by
    unfold viewInfer
    rw [hs1, hk4, if_pos ⟨by positivity, dvd_mul_right _ _⟩,
      Nat.mul_div_cancel_left _ (by positivity)]
    rfl
  have e5 : viewInfer [b * np, sq] [b, np, sq, sk] = .ok [b * np, sq, sk] := by
    unfold viewInfer
    rw [hbp1, hp4, if_pos ⟨by positivity, dvd_mul_right _ _⟩,
      Nat.mul_div_cancel_left _ (by positivity)]
    rfl
  have e3 : viewTo [b, np, sq, sk] [b * np, sq, sk] = .ok [b, np, sq, sk] := by
    unfold viewTo
    rw [if_pos (by simp [prodD]; try ring)]
  have e4 : addBroadcast [b, np, sq, sk] [b, 1, sq, sk] = .ok [b, np, sq, sk] := by
    simp [addBroadcast, bcastRev, bcDim_self, bcDim_one]
  have e7 : viewTo [b, np, sq, hn] [b * np, sq, hn] = .ok [b, np, sq, hn] := by
    unfold viewTo
    rw [if_pos (by simp [prodD]; try ring)]
  have e8 : viewTo [sq, b, np * hn] [sq, b, np, hn] = .ok [sq, b, np * hn] := by
    unfold viewTo
    rw [if_pos (by simp [prodD]; try ring)]
  by_cases hm : m = [b, 1, sq, sk]
  · subst hm
    simp [coreAttentionShape, e1, e2, e3, e4, e5, e7, e8, transpose10, bmm3,
      permute2013, except_ok_bind]
  · simp [coreAttentionShape, e1, e2, e3, e5, transpose10, bmm3,
      except_ok_bind, except_error_bind, hm]

/-! ### Claim C6: attention-mask shape check -/

/-- C6: `CoreAttention.forward` on conforming query/key/value tensors
with a non-None attention mask raises exactly when the mask shape
differs from `(batch, 1, query-len, key-len)` (lines 291-295). -/
theorem c6_core_attention_mask_shape (sq sk b np hn : Nat) (m : List Nat)
    (hsq : 0 < sq) (hsk : 0 < sk) (hb : 0 < b) (hnp : 0 < np) :
    isErr (coreAttentionShape (np * hn) [sq, b, np, hn] [sk, b, np, hn]
        [sk, b, np, hn] (some m)) = true
      ↔ m ≠ [b, 1, sq, sk] := by
  rw [coreAttentionShape_eval (np * hn) sq sk b np hn m hsq hsk hb hnp rfl]
  by_cases hm : m = [b, 1, sq, sk] <;> simp [hm, isErr]

/-- Witness for C6 at the spec numbers (query-len 4, key-len 6, batch 2,
one head per partition): mask `(2,1,4,6)` succeeds, mask `(1,2,4,6)`
raises. -/
theorem c6_core_attention_mask_shape_witness :
    isErr (coreAttentionShape (1 * 1) [4, 2, 1, 1] [6, 2, 1, 1]
        [6, 2, 1, 1] (some [2, 1, 4, 6])) = false
    ∧ isErr (coreAttentionShape (1 * 1) [4, 2, 1, 1] [6, 2, 1, 1]
        [6, 2, 1, 1] (some [1, 2, 4, 6])) = true := by
  constructor
  · exact Bool.eq_false_iff.mpr fun h => absurd
      ((c6_core_attention_mask_shape 4 6 2 1 1 [2, 1, 4, 6]
        (by decide) (by decide) (by decide) (by decide)).mp h)
      (by decide)
  · exact (c6_core_attention_mask_shape 4 6 2 1 1 [1, 2, 4, 6]
      (by decide) (by decide) (by decide) (by decide)).mpr (by decide)

/-! ### Claim C10: a `None` mask always raises -/

/-- C10: for every query/key/value input, `CoreAttention.forward` with
`attention_mask = None` raises rather than computing unmasked
attention: the softmax at line 299 consumes `attn_weights`, which is
assigned only inside the non-None-mask branch (lines 291-297). -/
theorem c10_core_attention_none_mask_raises (hpp : Nat) (q k v : List Nat) :
    isErr (coreAttentionShape hpp q k v none) = true := by
  unfold coreAttentionShape
  split
  · repeat'
      first
      | rfl
      | (apply isErr_bind; intro _)
  · rfl

/-! ### Idefics2ParallelMLP evaluation -/

/-- Evaluation of `Idefics2ParallelMLP.forward` on a 3-d input: for any
nonlinearity branch, with the gated doubling configured exactly when
the selected nonlinearity is the gated (width-halving) one, the output
shape is `(S, B, outputSize)` and the returned bias is `[outputSize]`
when biases are enabled. -/
theorem mlpForwardShape_eval (S B I O ffn world : Nat) (a : MLPArgs) (g addB : Bool)
    (hw : 0 < world) (hdvd : world ∣ ffn)
    (hg : g = true ↔ selectActivation a = Activation.swiglu)
    (hfu : effectiveFusion a = true → addB = true) :
    mlpForwardShape I ffn O g addB a world [S, B, I] =
      .ok ([S, B, O], if addB then some [O] else none) := by
  obtain ⟨t, rfl⟩ := hdvd
  have hd1 : world ∣ world * t := ⟨t, rfl⟩
  have hd2 : world ∣ 2 * (world * t) := ⟨2 * t, by ring⟩
  have hft : world * t / world = t := Nat.mul_div_cancel_left t hw
  have hft2 : 2 * (world * t) / world = 2 * t := by
    rw [show 2 * (world * t) = world * (2 * t) by ring, Nat.mul_div_cancel_left _ hw]
  have hchunk2 : 2 * t / 2 = t := by omega
  have hchunk1 : 2 * t - t = t := by omega
  rcases a with ⟨o, x, sw, sqr, bg⟩
  cases o <;> cases x <;> cases sw <;> cases sqr <;> cases bg <;> cases g <;> cases addB <;>
    first
    | (exfalso; simp [selectActivation] at hg; done)
    | (exfalso; exact absurd (hfu rfl) (by decide))
    | (simp [mlpForwardShape, selectActivation, effectiveFusion, columnLinear, rowLinear,
        activationShape, lastD, setLastD, addBroadcast, bcastRev, bcDim_self, bcDim_one,
        except_ok_bind, hw, hd1, hd2, hft, hft2, hchunk2, hchunk1]; done)

/-! ### Claim C3: MLP output shape for every nonlinearity branch -/

/-- C3: for every input of shape `(S, B, input_size)` and every
nonlinearity branch of `Idefics2ParallelMLP` (openai-gelu, erf-gelu,
swiglu, squared-relu, plain gelu), with `gated_linear_unit` doubling
the hidden projection width exactly when the gated (swiglu)
nonlinearity is configured, the forward output has shape exactly
`(S, B, output_size)` (lines 123-194). -/
theorem c3_mlp_output_shape (S B I O ffn world : Nat) (a : MLPArgs) (g addB : Bool)
    (hw : 0 < world) (hdvd : world ∣ ffn)
    (hg : g = true ↔ selectActivation a = Activation.swiglu)
    (hfu : effectiveFusion a = true → addB = true) :
    mlpForwardShape I ffn O g addB a world [S, B, I] =
      .ok ([S, B, O], if addB then some [O] else none) :=
  mlpForwardShape_eval S B I O ffn world a g addB hw hdvd hg hfu

/-- Witness for C3: the gated swiglu branch with doubled projection
width, two tensor-parallel ranks, input `(1, 1, 2)`, output `(1, 1, 3)`. -/
theorem c3_mlp_output_shape_witness :
    mlpForwardShape 2 4 3 true true ⟨false, false, true, false, false⟩ 2 [1, 1, 2] =
      .ok ([1, 1, 3], if true then some [3] else none) :=
  c3_mlp_output_shape 1 1 2 3 4 2 ⟨false, false, true, false, false⟩ true true
    (by decide) (by decide) (by decide) (by decide)

/-! ### ParallelAttention evaluation -/

/-- `pure` on `Except` is `Except.ok`. -/
theorem except_pure (a : α) : (pure a : Except String α) = Except.ok a := rfl

/-- Evaluation of `ParallelAttention.forward` (dense path, no inference
cache) on latents `(nl, B, th)` and context `(L, B, th)` with the
well-formed 4-d mask: the output keeps the latent sequence length and
the text hidden size, for any context length. -/
theorem parallelAttentionShape_eval (th nH hn w nl L B : Nat)
    (hB : 0 < B) (hnl : 0 < nl) (hH : 0 < nH) (hw : w ∣ nH) :
    parallelAttentionShape th nH hn w false [nl, B, th] [L, B, th]
      (some [B, 1, nl, L + nl]) none = .ok [nl, B, th] := by
  obtain ⟨u, rfl⟩ := hw
  have hw0 : 0 < w := by
    rcases Nat.eq_zero_or_pos w with h | h
    · subst h; simp at hH
    · exact h
  have hu0 : 0 < u := by
    rcases Nat.eq_zero_or_pos u with h | h
    · subst h; simp at hH
    · exact h
  have g1 : w * u / (w * u) = 1 := Nat.div_self hH
  have g2 : w * u / w = u := Nat.mul_div_cancel_left u hw0
  have g3 : hn * (w * u) / (w * u) = hn := by
    rw [mul_comm, Nat.mul_div_cancel_left _ hH]
  have g5 : hn * (w * u) / w = hn * u := by
    rw [show hn * (w * u) = w * (hn * u) by ring, Nat.mul_div_cancel_left _ hw0]
  have g4 : 2 * (hn * (w * u)) / w = 2 * (hn * u) := by
    rw [show 2 * (hn * (w * u)) = w * (2 * (hn * u)) by ring,
      Nat.mul_div_cancel_left _ hw0]
  have d1 : w ∣ 2 * (hn * (w * u)) := ⟨2 * (hn * u), by ring⟩
  have d2 : w ∣ hn * (w * u) := ⟨hn * u, by ring⟩
  have hcore := coreAttentionShape_eval (hn * u) nl (L + nl) B u hn [B, 1, nl, L + nl]
    hnl (by omega) hB hu0 (mul_comm hn u)
  rw [if_pos rfl] at hcore
  have b1 : concat0 [L, B, th] [nl, B, th] = .ok [L + nl, B, th] := by simp [concat0]
  have b2 : columnLinear th (2 * (hn * (w * u))) w [L + nl, B, th] =
      .ok [L + nl, B, 2 * (hn * u)] := by
    simp [columnLinear, lastD, setLastD, hw0, d1, g4]
  have b3 : viewTo [L + nl, B, u, 2 * hn] [L + nl, B, 2 * (hn * u)] =
      .ok [L + nl, B, u, 2 * hn] := by
    have hp : prodD [L + nl, B, 2 * (hn * u)] = prodD [L + nl, B, u, 2 * hn] := by
      simp only [prodD]; ring
    simp [viewTo, hp]
  have b4 : splitLast2 [L + nl, B, u, 2 * hn] = .ok [L + nl, B, u, hn] := by
    simp [splitLast2, lastD, setLastD, Nat.mul_mod_right, Nat.mul_div_cancel_left]
  have b5 : columnLinear th (hn * (w * u)) w [nl, B, th] = .ok [nl, B, hn * u] := by
    simp [columnLinear, lastD, setLastD, hw0, d2, g5]
  have b6 : viewTo [nl, B, u, hn] [nl, B, hn * u] =
      .ok [nl, B, u, hn] := by
    have hp : prodD [nl, B, hn * u] = prodD [nl, B, u, hn] := by
      simp only [prodD]; ring
    simp [viewTo, hp]
  have b7 : rowLinear (hn * (w * u)) th w [nl, B, hn * u] = .ok [nl, B, th] := by
    simp [rowLinear, lastD, setLastD, hw0, d2, g5]
  simp only [parallelAttentionShape, g1, g2, g3, g5, mul_one]
  simp [b1, b2, b3, b4, b5, b6, b7, hcore, except_ok_bind]

/-! ### ParallelTransformerLayer evaluation -/

/-- The gated (swiglu) nonlinearity excludes the bias-gelu fusion path. -/
theorem effectiveFusion_eq_false_of_swiglu (a : MLPArgs)
    (h : selectActivation a = Activation.swiglu) : effectiveFusion a = false := by
  rcases a with ⟨o, x, sw, sqr, bg⟩
  cases o <;> cases x <;> cases sw <;> cases sqr <;> cases bg <;>
    simp_all [selectActivation, effectiveFusion]

/-- Evaluation of `ParallelTransformerLayer.forward` on latents
`(nl, B, th)` and context `(S, B, th)` with the well-formed mask, in
the configuration the Perceiver uses (dense attention, no drop path,
swiglu activation), for any non-retriever layer type. -/
theorem layerForwardShape_eval (cfg : LayerCfg) (lt : LayerType) (nl S B : Nat)
    (ro : Option (List Nat))
    (hB : 0 < B) (hnl : 0 < nl) (hH : 0 < cfg.numHeads)
    (hw : cfg.world ∣ cfg.numHeads) (hth : cfg.world ∣ cfg.textHidden)
    (hflash : cfg.useFlashAttn = false) (hdp : cfg.dropPathUsed = false)
    (hact : selectActivation cfg.mlpArgs = Activation.swiglu)
    (hlt : lt ≠ LayerType.retro_decoder_with_retriever) :
    layerForwardShape cfg lt [nl, B, cfg.textHidden] [S, B, cfg.textHidden]
      (some [B, 1, nl, S + nl]) ro none = .ok (.single [nl, B, cfg.textHidden]) := by
  have hw0 : 0 < cfg.world := Nat.pos_of_dvd_of_pos hw hH
  have n1 : normShape cfg.textHidden [nl, B, cfg.textHidden] =
      .ok [nl, B, cfg.textHidden] := by simp [normShape, lastD]
  have n2 : normShape cfg.textHidden [S, B, cfg.textHidden] =
      .ok [S, B, cfg.textHidden] := by simp [normShape, lastD]
  have hattn := parallelAttentionShape_eval cfg.textHidden cfg.numHeads cfg.hn
    cfg.world nl S B hB hnl hH hw
  have hmlp := mlpForwardShape_eval nl B cfg.textHidden cfg.textHidden
    (4 * cfg.textHidden) cfg.world cfg.mlpArgs true cfg.addBiasLinear hw0
    (Dvd.dvd.mul_left hth 4) (iff_of_true rfl hact)
    (fun hf => absurd hf (by simp [effectiveFusion_eq_false_of_swiglu _ hact]))
  have hexp : expandAs [cfg.textHidden] [nl, B, cfg.textHidden] =
      .ok [nl, B, cfg.textHidden] := by simp [expandAs, canExpandRev]
  have hbc : addBroadcast [nl, B, cfg.textHidden] [nl, B, cfg.textHidden] =
      .ok [nl, B, cfg.textHidden] := by
    simp [addBroadcast, bcastRev, bcDim_self]
  have hbda1 : biasDropoutAddShape [nl, B, cfg.textHidden]
      (some [nl, B, cfg.textHidden]) [nl, B, cfg.textHidden] =
      .ok [nl, B, cfg.textHidden] := by
    simp [biasDropoutAddShape, hbc, except_ok_bind]
  have hbda2 : biasDropoutAddShape [nl, B, cfg.textHidden] none
      [nl, B, cfg.textHidden] = .ok [nl, B, cfg.textHidden] := by
    simp [biasDropoutAddShape, hbc, except_ok_bind]
  cases hab : cfg.addBiasLinear <;> simp [hab] at hmlp <;>
    simp [layerForwardShape, hflash, hdp, hab, n1, n2, hattn, hmlp, hexp,
      hbda1, hbda2, hlt, except_ok_bind, except_pure, Except.map]

/-! ### Transformer loop and top-level evaluation -/

/-- Evaluation of the sequential layer loop: in the Perceiver
configuration (no retriever, non-retriever default layer type) every
layer maps a `(nLatents, B, textHidden)` stream to itself. -/
theorem runLayers_eval (cfg : TransformerCfg) (retroNums : Option (List Nat))
    (S B : Nat) (ro : Option (List Nat))
    (hB : 0 < B) (hnl : 0 < cfg.nLatents) (hH : 0 < cfg.numHeads)
    (hw : cfg.world ∣ cfg.numHeads) (hth : cfg.world ∣ cfg.textHidden)
    (hflash : cfg.useFlashAttn = false) (hdp : cfg.dropPathRate0 = true)
    (hact : selectActivation cfg.mlpArgs = Activation.swiglu)
    (hretro : cfg.retroAddRetriever = false)
    (hdef : cfg.defaultLayerType ≠ LayerType.retro_decoder_with_retriever) :
    ∀ (n idx : Nat),
      runLayers cfg retroNums [S, B, cfg.textHidden]
        (some [B, 1, cfg.nLatents, S + cfg.nLatents]) ro none idx n
        [cfg.nLatents, B, cfg.textHidden] = .ok [cfg.nLatents, B, cfg.textHidden] := by
  intro n
  induction n with
  | zero => intro idx; rfl
  | succ k ih =>
    intro idx
    have hlayer := layerForwardShape_eval cfg.layerCfg cfg.defaultLayerType
      cfg.nLatents S B ro hB hnl hH hw hth hflash
      (by simp [TransformerCfg.layerCfg, hdp]) hact hdef
    simp only [show cfg.layerCfg.textHidden = cfg.textHidden from rfl] at hlayer
    simp only [runLayers, getLayerType, hretro, Bool.false_eq_true, if_false,
      except_Bind_ok]
    rw [hlayer]
    simpa [except_Bind_ok] using ih (idx + 1)

/-- Evaluation of `Idefics2PerceiverParallelTransformer.forward` in the
Perceiver configuration: a `(B, S, visionHidden)` visual stream with a
`(B, S)` padding mask yields an `(nLatents, B, textHidden)` output. -/
theorem transformerForwardShape_eval (cfg : TransformerCfg) (S B : Nat)
    (hB : 0 < B) (hnl : 0 < cfg.nLatents) (hH : 0 < cfg.numHeads)
    (hw : cfg.world ∣ cfg.numHeads) (hth : cfg.world ∣ cfg.textHidden)
    (hint : cfg.world ∣ cfg.intermediateSize)
    (hflash : cfg.useFlashAttn = false) (hdp : cfg.dropPathRate0 = true)
    (hact : selectActivation cfg.mlpArgs = Activation.swiglu)
    (hretro : cfg.retroAddRetriever = false)
    (hdef : cfg.defaultLayerType ≠ LayerType.retro_decoder_with_retriever) :
    transformerForwardShape cfg [B, S, cfg.visionHidden] [B, S] none none =
      .ok [cfg.nLatents, B, cfg.textHidden] := by
  have hw0 : 0 < cfg.world := Nat.pos_of_dvd_of_pos hw hH
  have hproj := mlpForwardShape_eval B S cfg.visionHidden cfg.textHidden
    cfg.intermediateSize cfg.world cfg.mlpArgs true cfg.addBiasLinear hw0 hint
    (iff_of_true rfl hact)
    (fun hf => absurd hf (by simp [effectiveFusion_eq_false_of_swiglu _ hact]))
  have hcat : catLast [B, S] [B, cfg.nLatents] = .ok [B, S + cfg.nLatents] := by
    simp [catLast, lastD, setLastD]
  have hloop := runLayers_eval cfg
    (computeRetroLayerNumbers cfg.modelType cfg.numLayers cfg.numLayers)
    S B none hB hnl hH hw hth hflash hdp hact hretro hdef cfg.numLayers 0
  by_cases hpn : cfg.postProcess ∧ cfg.postNorm <;>
    simp [transformerForwardShape, hproj, hcat, hflash, hloop, hpn, dim0,
      prepare4dMask, transpose10, normShape, lastD, except_ok_bind, except_pure]

/-! ### Claim C1: fixed latent-count output shape -/

/-- C1: the resampler output length is the fixed latent count,
independent of the context length: for `n_latents = 64` and
`text_hidden_size = 256`, any context length `L` and batch `B` (and any
head/tensor-parallel geometry), `ParallelAttention.forward` returns a
`(64, B, 256)` tensor; and the top-level forward returns an
`n_latents`-long sequence per batch element, of shape
`(nLatents, B, textHidden)`. -/
theorem c1_fixed_latent_output_shape :
    (∀ L B nH hn w : Nat, 0 < B → 0 < nH → w ∣ nH →
      parallelAttentionShape 256 nH hn w false [64, B, 256] [L, B, 256]
        (some [B, 1, 64, L + 64]) none = .ok [64, B, 256])
    ∧ ∀ (cfg : TransformerCfg) (S B : Nat),
        0 < cfg.numLayers → 0 < B → 0 < cfg.nLatents → 0 < cfg.numHeads →
        cfg.world ∣ cfg.numHeads → cfg.world ∣ cfg.textHidden →
        cfg.world ∣ cfg.intermediateSize →
        cfg.useFlashAttn = false → cfg.dropPathRate0 = true →
        selectActivation cfg.mlpArgs = Activation.swiglu →
        cfg.retroAddRetriever = false →
        cfg.defaultLayerType ≠ LayerType.retro_decoder_with_retriever →
        transformerForwardShape cfg [B, S, cfg.visionHidden] [B, S] none none =
          .ok [cfg.nLatents, B, cfg.textHidden] := by
  constructor
  · intro L B nH hn w hB hH hw
    exact parallelAttentionShape_eval 256 nH hn w 64 L B hB (by decide) hH hw
  · intro cfg S B _hnum hB hnl hH hw hth hint hflash hdp hact hretro hdef
    exact transformerForwardShape_eval cfg S B hB hnl hH hw hth hint hflash hdp
      hact hretro hdef

/-- Witness for C1: context length 50, batch 3, two heads of width 3 on
one tensor-parallel rank; and a concrete two-layer transformer with 64
latents. -/
theorem c1_fixed_latent_output_shape_witness :
    parallelAttentionShape 256 2 3 1 false [64, 3, 256] [50, 3, 256]
      (some [3, 1, 64, 50 + 64]) none = .ok [64, 3, 256]
    ∧ transformerForwardShape
        ⟨2, 64, 4, 5, 6, 2, 3, 1, false, true, false,
          ⟨false, false, true, false, false⟩, true, false,
          ModelType.encoder_or_decoder, LayerType.encoder, 0, true, true⟩
        [2, 7, 5] [2, 7] none none = .ok [64, 2, 4] :=
  ⟨c1_fixed_latent_output_shape.1 50 3 2 3 1 (by decide) (by decide) (by decide),
   c1_fixed_latent_output_shape.2
     ⟨2, 64, 4, 5, 6, 2, 3, 1, false, true, false,
       ⟨false, false, true, false, false⟩, true, false,
       ModelType.encoder_or_decoder, LayerType.encoder, 0, true, true⟩
     7 2 (by decide) (by decide) (by decide) (by decide) (by decide) (by decide)
     (by decide) (by decide) (by decide) (by decide) (by decide) (by decide)⟩

/-! ### Claim C2: which layer types return the retriever pair

The claim says the pair is returned for the basic layer type and for
retro-decoder-with-retriever.  The code (lines 1140-1143) returns the
pair only for retro-decoder-with-retriever: a basic (encoder) layer
returns just the output tensor. -/

/-- C2 counterexample: a basic (encoder-type) layer forward succeeds
and returns a single tensor, not the `(output, retriever_output)` pair
the claim predicts for the basic type. -/
theorem c2_basic_layer_returns_single_counterexample :
    resultIsPair (layerForwardShape
      ⟨4, 1, 2, 1, false, false, false, ⟨false, false, true, false, false⟩, false⟩
      LayerType.encoder [2, 1, 4] [3, 1, 4] (some [1, 1, 2, 5]) none none) = false
    ∧ isOk (layerForwardShape
      ⟨4, 1, 2, 1, false, false, false, ⟨false, false, true, false, false⟩, false⟩
      LayerType.encoder [2, 1, 4] [3, 1, 4] (some [1, 1, 2, 5]) none none) = true := by
  constructor <;> rfl

/-- C2 (amended): whenever `ParallelTransformerLayer.forward`
succeeds, it returns the pair `(output, retriever_output)` if and only
if the layer type is retro-decoder-with-retriever; every other layer
type (including the basic one) returns only the output tensor
(lines 1140-1143). -/
theorem c2_pair_iff_retriever_layer (cfg : LayerCfg) (lt : LayerType)
    (latents context : List Nat) (mask : Option (List Nat))
    (ro : Option (List Nat)) (ip : Option (Nat × Nat × Nat × Nat)) (r : LayerOut)
    (h : layerForwardShape cfg lt latents context mask ro ip = .ok r) :
    r.isPair = true ↔ lt = LayerType.retro_decoder_with_retriever := by
  unfold layerForwardShape at h
  obtain ⟨a1, -, h⟩ := ok_of_bind h
  obtain ⟨a2, -, h⟩ := ok_of_bind h
  obtain ⟨a3, -, h⟩ := ok_of_bind h
  obtain ⟨a4, -, h⟩ := ok_of_bind h
  obtain ⟨a5, -, h⟩ := ok_of_bind h
  obtain ⟨a6, -, h⟩ := ok_of_bind h
  obtain ⟨a7, -, h⟩ := ok_of_bind h
  by_cases hl : lt = LayerType.retro_decoder_with_retriever
  · rw [if_pos hl, except_pure] at h
    obtain rfl := (Except.ok.inj h).symm
    simp [LayerOut.isPair, hl]
  · rw [if_neg hl, except_pure] at h
    obtain rfl := (Except.ok.inj h).symm
    simp [LayerOut.isPair, hl]

/-- Witness for C2 at a concrete retriever-type layer. -/
theorem c2_pair_iff_retriever_layer_witness :
    (LayerOut.pair [2, 1, 4] none).isPair = true
      ↔ LayerType.retro_decoder_with_retriever =
          LayerType.retro_decoder_with_retriever :=
  c2_pair_iff_retriever_layer
    ⟨4, 1, 2, 1, false, false, false, ⟨false, false, true, false, false⟩, false⟩
    LayerType.retro_decoder_with_retriever [2, 1, 4] [3, 1, 4]
    (some [1, 1, 2, 5]) none none (LayerOut.pair [2, 1, 4] none) (by rfl)

end Perceiver
